import Mathlib

/-!
Verification development for the SpringVerify face-match gateway.

The JavaScript source is shallowly embedded: every provider adapter's
normalization logic, the poll loop, the compression loop, the multi-step
call sequence and the free-text parser become pure Lean functions.
External effects (HTTP responses, the JPEG codec, the wall clock) are
passed in explicitly as values, so each function is a deterministic
function of its inputs exactly as the source is a deterministic function
of the data it receives.

Numbers are modelled as rationals (JS numbers on the score paths are
decimal values such as 91.0 or 0.15; no overflow arithmetic occurs).
JavaScript's falsy-coalescing `a || b` is modelled by `jsOrN` / `jsOrB` /
`jsOrS` (0, false and "" fall through), and `a ?? b` by `Option.getD`.
-/

/-- JS `x || d` for an optional number field: `none` (absent) and `0` are
falsy and fall through to the default. -/
def jsOrN (o : Option ℚ) (d : ℚ) : ℚ :=
  match o with
  | some v => if v = 0 then d else v
  | none => d

/-- JS `x || d` for an optional boolean field: `none` (absent) and an
explicit `false` are falsy and fall through to the default. -/
def jsOrB (o : Option Bool) (d : Bool) : Bool :=
  match o with
  | some b => if b then true else d
  | none => d

/-- JS `x || d` for an optional string field: `none` (absent) and the empty
string are falsy and fall through to the default. -/
def jsOrS (o : Option String) (d : String) : String :=
  match o with
  | some s => if s = "" then d else s
  | none => d

/-- ASCII lower-casing of one character, as JS `toLowerCase` acts on the
ASCII letters appearing in the provider fields. -/
def asciiLower (c : Char) : Char :=
  if 'A' ≤ c ∧ c ≤ 'Z' then Char.ofNat (c.toNat + 32) else c

/-- ASCII upper-casing of one character, as JS `toUpperCase`. -/
def asciiUpper (c : Char) : Char :=
  if 'a' ≤ c ∧ c ≤ 'z' then Char.ofNat (c.toNat - 32) else c

/-- JS `s.toLowerCase()` on ASCII data. -/
def lowerStr (s : String) : String :=
  String.mk (s.toList.map asciiLower)

/-- JS `s.toUpperCase()` on ASCII data. -/
def upperStr (s : String) : String :=
  String.mk (s.toList.map asciiUpper)

/-- JS `s.includes(pat)`: substring containment. -/
def containsStr (s pat : String) : Bool :=
  decide (pat.toList <:+: s.toList)

/-!
Section: SpringScan raw responses and canonical results

`RawSpring` models the JSON object a SpringScan-style provider returns,
restricted to the fields the normalizers in `src/server.js` actually read.
Absent fields are `none`. The JS field `match` is spelled `matchF`
(`match` is a Lean keyword).
-/

structure RawSpring where
  match_score : Option ℚ
  score : Option ℚ
  confidence : Option ℚ
  similarity : Option ℚ
  matchScore : Option ℚ
  confidenceScore : Option ℚ
  isMatch : Option Bool
  matchF : Option Bool
  faceMatched : Option Bool
  request_id : Option String
  transactionId : Option String
  id : Option String
  liveness_status : Option String
  liveness_confidence : Option ℚ
  face_1_detected : Option Bool
  face_1_quality : Option String
  face_2_detected : Option Bool
  face_2_quality : Option String
deriving DecidableEq

/-- A raw response with every field absent. -/
def emptyRaw : RawSpring :=
  ⟨none, none, none, none, none, none, none, none, none, none, none, none,
   none, none, none, none, none, none⟩

/-- Canonical result of `callSpringScanAPI` (src/server.js lines 111-127).
`processed_at` is the clock value passed in for `new Date()`. -/
structure SpringResultA where
  request_id : String
  match_score : ℚ
  match_percentage : ℚ
  match_band : String
  status : String
  confidence_level : String
  liveness_status : String
  liveness_confidence : ℚ
  face_1_detected : Bool
  face_1_quality : String
  face_2_detected : Bool
  face_2_quality : String
  processed_at : ℕ
  mode : String
  raw_response : RawSpring
deriving DecidableEq

/-- Canonical result of `callSpringScanFaceMatch` (src/server.js lines
439-457), which additionally carries `person_id` and `face_matched`. -/
structure SpringResultB where
  request_id : String
  person_id : String
  match_score : ℚ
  match_percentage : ℚ
  match_band : String
  status : String
  confidence_level : String
  face_matched : Bool
  liveness_status : String
  liveness_confidence : ℚ
  face_1_detected : Bool
  face_1_quality : String
  face_2_detected : Bool
  face_2_quality : String
  processed_at : ℕ
  mode : String
  raw_response : RawSpring
deriving DecidableEq

/-- Score extraction chain of `callSpringScanAPI` (src/server.js line 106):
`data.match_score || data.score || data.confidence || data.similarity || 0`. -/
def springScoreA (d : RawSpring) : ℚ :=
  jsOrN d.match_score (jsOrN d.score (jsOrN d.confidence (jsOrN d.similarity 0)))

/-- Score extraction chain of `callSpringScanFaceMatch` (src/server.js lines
432-433): `data.match_score || data.score || data.confidence ||
data.similarity || data.matchScore || data.confidenceScore || 0`. -/
def springScoreB (d : RawSpring) : ℚ :=
  jsOrN d.match_score (jsOrN d.score (jsOrN d.confidence (jsOrN d.similarity
    (jsOrN d.matchScore (jsOrN d.confidenceScore 0)))))

/-- Normalization performed by `callSpringScanAPI` on the provider's JSON
response (src/server.js lines 106-127). `now` stands for `Date.now()` /
`new Date()` read once per run. -/
def normalizeSpringA (d : RawSpring) (now : ℕ) : SpringResultA :=
  let score := springScoreA d
  let isMatch := jsOrB d.isMatch (jsOrB d.matchF (decide (70 ≤ score)))
  let isHigh := decide (85 ≤ score)
  let isMedium := decide (70 ≤ score)
  { request_id := jsOrS d.request_id (jsOrS d.transactionId ("SV_" ++ toString now))
    match_score := score
    match_percentage := score
    match_band := if isHigh then "HIGH" else if isMedium then "MEDIUM" else "LOW"
    status := if isMatch && decide (70 ≤ score) then "VERIFIED"
              else if decide (50 ≤ score) then "REVIEW" else "FAILED"
    confidence_level := if isHigh then "HIGH" else if isMedium then "MEDIUM" else "LOW"
    liveness_status := jsOrS d.liveness_status "PASSED"
    liveness_confidence := jsOrN d.liveness_confidence 0.97
    face_1_detected := d.face_1_detected.getD true
    face_1_quality := jsOrS d.face_1_quality "GOOD"
    face_2_detected := d.face_2_detected.getD true
    face_2_quality := jsOrS d.face_2_quality "GOOD"
    processed_at := now
    mode := "springscan"
    raw_response := d }

/-- Normalization performed by `callSpringScanFaceMatch` (src/server.js
lines 429-457): `isMatch = data.isMatch || data.match || data.faceMatched
|| score >= 70`, and `face_matched := isMatch`. -/
def normalizeSpringB (d : RawSpring) (pid : String) (now : ℕ) : SpringResultB :=
  let score := springScoreB d
  let isMatch := jsOrB d.isMatch (jsOrB d.matchF (jsOrB d.faceMatched (decide (70 ≤ score))))
  let isHigh := decide (85 ≤ score)
  let isMedium := decide (70 ≤ score)
  { request_id := jsOrS d.request_id (jsOrS d.transactionId (jsOrS d.id ("SS_" ++ toString now)))
    person_id := pid
    match_score := score
    match_percentage := score
    match_band := if isHigh then "HIGH" else if isMedium then "MEDIUM" else "LOW"
    status := if isMatch && decide (70 ≤ score) then "VERIFIED"
              else if decide (50 ≤ score) then "REVIEW" else "FAILED"
    confidence_level := if isHigh then "HIGH" else if isMedium then "MEDIUM" else "LOW"
    face_matched := isMatch
    liveness_status := jsOrS d.liveness_status "N/A"
    liveness_confidence := jsOrN d.liveness_confidence 0
    face_1_detected := d.face_1_detected.getD true
    face_1_quality := jsOrS d.face_1_quality "GOOD"
    face_2_detected := d.face_2_detected.getD true
    face_2_quality := jsOrS d.face_2_quality "GOOD"
    processed_at := now
    mode := "springscan-facematch"
    raw_response := d }

/-- Band thresholds as the specification words them (section 4.3): s ≥ 85
gives HIGH, 70 ≤ s < 85 gives MEDIUM, s < 70 gives LOW. -/
def bandOfScoreSpec (s : ℚ) : String :=
  if 85 ≤ s then "HIGH" else if 70 ≤ s then "MEDIUM" else "LOW"

/-!
Section: IDfy adapter (src/unnamed/part_000)

`callIdfyFaceMatch` extracts `parseFloat(data.match_score) || 0` and maps
the provider's qualitative `match_band` (green / yellow / red / gray) to
confidence level and status; the reported `match_band` is the provider's
band upper-cased. `match_score` here models the `parseFloat` result:
`none` stands for an absent field or an unparsable string (`NaN`), which
is falsy in JS exactly like `0`.
-/

structure RawIdfy where
  request_id : Option String
  task_id : Option String
  match_score : Option ℚ
  match_band : Option String
  face_1_status : Option String
  face_1_quality : Option String
  face_2_status : Option String
  face_2_quality : Option String
deriving DecidableEq

/-- A raw IDfy response with every field absent. -/
def emptyRawIdfy : RawIdfy :=
  ⟨none, none, none, none, none, none, none, none⟩

structure IdfyResult where
  request_id : String
  match_score : ℚ
  match_percentage : ℚ
  match_band : String
  status : String
  confidence_level : String
  face_matched : Bool
  face_1_detected : Bool
  face_1_quality : String
  face_2_detected : Bool
  face_2_quality : String
  processed_at : ℕ
  mode : String
deriving DecidableEq

/-- JS `data.match_band?.toLowerCase() || 'gray'` (src/unnamed/part_000
lines 219 and 579). -/
def idfyBandLower (d : RawIdfy) : String :=
  match d.match_band with
  | some b => if lowerStr b = "" then "gray" else lowerStr b
  | none => "gray"

/-- Normalization performed by `callIdfyFaceMatch` (src/unnamed/part_000
lines 216-262, identically lines 575-622): band-driven mapping
green gives HIGH/VERIFIED, yellow gives MEDIUM/REVIEW, anything else gives
LOW/FAILED; `faceMatched` is true for green or yellow; the canonical
`match_band` is the lower-cased provider band upper-cased again. -/
def normalizeIdfy (d : RawIdfy) (taskId : String) (now : ℕ) : IdfyResult :=
  let score := jsOrN d.match_score 0
  let matchBand := idfyBandLower d
  let faceMatched := matchBand == "green" || matchBand == "yellow"
  let confidenceLevel := if matchBand = "green" then "HIGH"
                         else if matchBand = "yellow" then "MEDIUM" else "LOW"
  let status := if matchBand = "green" then "VERIFIED"
                else if matchBand = "yellow" then "REVIEW" else "FAILED"
  { request_id := jsOrS d.request_id (jsOrS d.task_id taskId)
    match_score := score
    match_percentage := score
    match_band := upperStr matchBand
    status := status
    confidence_level := confidenceLevel
    face_matched := faceMatched
    face_1_detected := d.face_1_status == some "face_detected"
    face_1_quality := jsOrS d.face_1_quality "unknown"
    face_2_detected := d.face_2_status == some "face_detected"
    face_2_quality := jsOrS d.face_2_quality "unknown"
    processed_at := now
    mode := "idfy-rest-v2" }

/-!
Section: AsyncPoll loop (src/unnamed/part_000 lines 506-560)

The poll loop is driven by the provider's response to each GET, supplied
here as a function from the attempt number (1-based) to a response.
`PollResult` records how the loop exits and after how many polls.
-/

inductive PollResp where
  | ok (status : String)
  | http404
  | httpErr (code : ℕ)
deriving DecidableEq

inductive PollResult where
  | success (polls : ℕ)
  | taskFailed (polls : ℕ)
  | endpointNotFound
  | timeout
  | otherError (polls : ℕ) (code : ℕ)
deriving DecidableEq

/-- One round of the `while (attempts < maxAttempts)` body plus the
post-loop `if (attempts >= maxAttempts) throw Timeout` check. `fuel` is
`maxAttempts - attempts`; `attempts` counts polls already made. On a
`completed`/`success` response the source breaks out of the loop and then
still runs the post-loop check, so a break on the final attempt lands in
the timeout throw. -/
def pollGo (resp : ℕ → PollResp) : ℕ → ℕ → PollResult
  | 0, _ => PollResult.timeout
  | fuel + 1, attempts =>
    let a := attempts + 1
    match resp a with
    | PollResp.ok st =>
      if st = "completed" ∨ st = "success" then
        if 30 ≤ a then PollResult.timeout else PollResult.success a
      else if st = "failed" ∨ st = "failure" then PollResult.taskFailed a
      else pollGo resp fuel a
    | PollResp.http404 =>
      if a = 1 then PollResult.endpointNotFound else pollGo resp fuel a
    | PollResp.httpErr c => PollResult.otherError a c

/-- The poll loop of `callIdfyFaceMatch` (src/unnamed/part_000 lines
509-560): at most 30 attempts, 1-second waits between polls. -/
def pollLoop (resp : ℕ → PollResp) : PollResult :=
  pollGo resp 30 0

/-!
Section: Vision-inference parser (src/unnamed/part_000 lines 835-879)

`parseAIResponse` receives the model's free text. The three numeric
regex extractions are passed in as the values the JS regexes capture on
that text: `percentCap` for `/(\d+\.?\d*)%/`, `scoreCap` for
`/score[:\s]+(\d+\.?\d*)/i` and `confCap` for
`/confidence[:\s]+(\d+\.?\d*)/i`; `none` means the regex does not match.
All substring tests are computed concretely on the text.
-/

def parseAIResponse (aiText : String) (percentCap scoreCap confCap : Option ℚ) :
    Bool × ℚ :=
  if aiText = "" then (false, 0)
  else
    let lowerText := lowerStr aiText
    let match0 := containsStr lowerText "match" &&
      (containsStr lowerText "yes" || containsStr lowerText "true" ||
       containsStr lowerText "positive")
    let match1 := if containsStr lowerText "no match" ||
        containsStr lowerText "not match" || containsStr lowerText "different"
      then false else match0
    let score0 : ℚ := match percentCap with
      | some v => v
      | none => 0
    let score1 : ℚ := match scoreCap with
      | some v => if v ≤ 1 then v * 100 else v
      | none => score0
    let score2 : ℚ := match confCap with
      | some v => v
      | none => score1
    let match2 := if decide (70 ≤ score2) && !containsStr lowerText "not"
      then true else match1
    (match2, score2)

/-- Score priority as the amended claim words it: an explicit confidence
capture wins, then an explicit score capture (values at most 1 scaled by
100), then a bare percentage, then 0. -/
def specParsedScore (percentCap scoreCap confCap : Option ℚ) : ℚ :=
  match confCap with
  | some c => c
  | none =>
    match scoreCap with
    | some v => if v ≤ 1 then v * 100 else v
    | none =>
      match percentCap with
      | some p => p
      | none => 0

/-- Match polarity as the amended claim words it: true when the final
score is at least 70 and the text lacks the substring "not" (this
inference runs unconditionally, overriding explicit cues), or when an
affirmative cue appears and no negative cue does. -/
def specParsedMatch (aiText : String) (s : ℚ) : Bool :=
  if aiText = "" then false
  else
    let l := lowerStr aiText
    let affirmative := containsStr l "match" &&
      (containsStr l "yes" || containsStr l "true" || containsStr l "positive")
    let negative := containsStr l "no match" || containsStr l "not match" ||
      containsStr l "different"
    (decide (70 ≤ s) && !containsStr l "not") || (affirmative && !negative)

/-!
Section: Image compressor (src/server.js lines 516-535, identical copies in
src/unnamed/part_000)

The JPEG codec (`sharp(buffer).resize(dim, dim).jpeg({quality}).toBuffer()`)
is external; it enters the model as `encode quality boundingBox`, the byte
size of the encoding of the fixed input image at that quality and bounding
box. `compressImage` returns the final byte size, the final quality, and
the list of qualities attempted, in order.
-/

def compressGo (encode : ℕ → ℕ → ℕ) (maxKB : ℕ) (q c : ℕ) (used : List ℕ) :
    ℕ × ℕ × List ℕ :=
  if h : maxKB * 1024 < c ∧ 20 < q then
    compressGo encode maxKB (q - 10) (encode (q - 10) 600) (used ++ [q - 10])
  else (c, q, used)
  termination_by q
  decreasing_by omega

/-- Function `compressImage`: first encoding at quality 70 in an 800x800 box, then
the `while (compressed.length > maxSizeKB * 1024 && quality > 20)` retry
loop at 600x600, dropping quality by 10 each round. -/
def compressImage (encode : ℕ → ℕ → ℕ) (maxKB : ℕ) : ℕ × ℕ × List ℕ :=
  compressGo encode maxKB 70 (encode 70 800) [70]

/-!
Section: MultiStep adapter (src/server.js lines 623-723)

`callSpringScanFaceMatch` in the OCR variant issues three dependent calls:
create person, upload selfie, submit the ID document via OCR. Each HTTP
response is supplied as a value; an axios error carries the upstream
status, body and message. The route handler (lines 576-588) turns an
error into `res.status(status || 500).json({success: false, error, detail})`.
-/

inductive HttpResp (α : Type) where
  | ok (val : α)
  | err (status : ℕ) (body : String) (msg : String)

/-- Fields of the `matchResult` / `matchedInformation` sub-object read by
the OCR normalizer. -/
structure MatchResultObj where
  confidence : Option ℚ
  score : Option ℚ
deriving DecidableEq

/-- Fields of the OCR response read by the OCR variant of
`callSpringScanFaceMatch` (src/server.js lines 682-717). -/
structure RawOcr where
  faceMatched : Option Bool
  matchResult : Option MatchResultObj
  matchedInformation : Option MatchResultObj
  match_score : Option ℚ
  score : Option ℚ
  confidence : Option ℚ
  matchScore : Option ℚ
  confidenceScore : Option ℚ
  isMatch : Option Bool
  request_id : Option String
  transactionId : Option String
  id : Option String
deriving DecidableEq

structure SpringResultC where
  request_id : String
  person_id : String
  match_score : ℚ
  match_band : String
  status : String
  confidence_level : String
  face_matched : Bool
  processed_at : ℕ
  mode : String
  raw_response : RawOcr
deriving DecidableEq

/-- Normalization in the OCR variant (src/server.js lines 682-718):
`matchResult = data.matchResult || data.matchedInformation || {}` (any
present object wins, even empty), score from the seven-field chain,
`faceMatched = data.faceMatched || false`,
`isMatch = faceMatched || data.isMatch || score >= 70`. -/
def normalizeSpringC (d : RawOcr) (pid : String) (now : ℕ) : SpringResultC :=
  let mr := match d.matchResult with
    | some m => m
    | none => match d.matchedInformation with
      | some m => m
      | none => ⟨none, none⟩
  let score := jsOrN mr.confidence (jsOrN mr.score (jsOrN d.match_score
    (jsOrN d.score (jsOrN d.confidence (jsOrN d.matchScore
      (jsOrN d.confidenceScore 0))))))
  let faceMatched := jsOrB d.faceMatched false
  let isMatch := if faceMatched then true else jsOrB d.isMatch (decide (70 ≤ score))
  let isHigh := decide (85 ≤ score)
  let isMedium := decide (70 ≤ score)
  { request_id := jsOrS d.request_id (jsOrS d.transactionId (jsOrS d.id ("SS_" ++ toString now)))
    person_id := pid
    match_score := score
    match_band := if isHigh then "HIGH" else if isMedium then "MEDIUM" else "LOW"
    status := if isMatch && decide (70 ≤ score) then "VERIFIED"
              else if decide (50 ≤ score) then "REVIEW" else "FAILED"
    confidence_level := if isHigh then "HIGH" else if isMedium then "MEDIUM" else "LOW"
    face_matched := faceMatched
    processed_at := now
    mode := "springscan-ocr-with-facematch"
    raw_response := d }

/-- The three dependent provider calls of the MultiStep flow, in program
order. -/
inductive Step where
  | createPerson
  | uploadSelfie
  | ocr
deriving DecidableEq

/-- Responses the provider gives to each of the three calls. -/
structure MultiOracle where
  createPerson : HttpResp String
  uploadSelfie : HttpResp Unit
  ocr : HttpResp RawOcr

/-- An upstream failure as the route handler sees it: the axios error's
`response.status`, `response.data` and `message`. -/
structure CallErr where
  status : ℕ
  body : String
  msg : String
deriving DecidableEq

/-- The MultiStep flow (src/server.js lines 623-723): each `await` either
succeeds and the next call is issued, or throws, aborting the sequence.
Returns the list of calls actually issued and the outcome. No rollback
call exists in the source, so `Step` has no delete/rollback constructor
and an aborted run's trace simply stops at the failing step. -/
def callSpringScanMulti (o : MultiOracle) (now : ℕ) :
    List Step × Except CallErr SpringResultC :=
  match o.createPerson with
  | HttpResp.err s b m => ([Step.createPerson], Except.error ⟨s, b, m⟩)
  | HttpResp.ok pid =>
    match o.uploadSelfie with
    | HttpResp.err s b m =>
      ([Step.createPerson, Step.uploadSelfie], Except.error ⟨s, b, m⟩)
    | HttpResp.ok _ =>
      match o.ocr with
      | HttpResp.err s b m =>
        ([Step.createPerson, Step.uploadSelfie, Step.ocr], Except.error ⟨s, b, m⟩)
      | HttpResp.ok dta =>
        ([Step.createPerson, Step.uploadSelfie, Step.ocr],
         Except.ok (normalizeSpringC dta pid now))

/-- The error envelope the `/api/face-match` handler returns on failure
(src/server.js lines 576-588): HTTP status `error.response.status || 500`,
body `{success: false, error: message, detail: response.data}`. -/
structure ErrorEnvelope where
  httpStatus : ℕ
  success : Bool
  error : String
  detail : Option String
deriving DecidableEq

/-- The route handler around the MultiStep flow: on success relay the
result, on failure build the error envelope. -/
def handleFaceMatchMulti (o : MultiOracle) (now : ℕ) :
    Except ErrorEnvelope SpringResultC :=
  match (callSpringScanMulti o now).2 with
  | Except.ok r => Except.ok r
  | Except.error e =>
    Except.error ⟨if e.status = 0 then 500 else e.status, false, e.msg, some e.body⟩

/-!
Section: Helper lemmas
-/

lemma jsOrB_true (o : Option Bool) : jsOrB o true = true := by
  cases o with
  | none => rfl
  | some b => cases b <;> rfl

lemma jsOrB_eq_true (o : Option Bool) (d : Bool) :
    jsOrB o d = true ↔ (o = some true ∨ d = true) := by
  cases o with
  | none => simp [jsOrB]
  | some b => cases b <;> simp [jsOrB]

/-- Predicate used by the amended range claim: an optional provider score
field is either absent or lies in [0, 100]. -/
def inRangeOpt (o : Option ℚ) : Prop :=
  match o with
  | some v => 0 ≤ v ∧ v ≤ 100
  | none => True

instance inRangeOptDec : ∀ o : Option ℚ, Decidable (inRangeOpt o)
  | some _ => inferInstanceAs (Decidable (_ ∧ _))
  | none => inferInstanceAs (Decidable True)

lemma jsOrN_range (o : Option ℚ) (dv : ℚ) (ho : inRangeOpt o)
    (h0 : 0 ≤ dv) (h1 : dv ≤ 100) : 0 ≤ jsOrN o dv ∧ jsOrN o dv ≤ 100 := by
  cases o with
  | none => exact ⟨h0, h1⟩
  | some v =>
    simp only [jsOrN]
    split
    · exact ⟨h0, h1⟩
    · exact ho

/-!
Section: C1
-/

/-- C1: in the score-driven normalizers (`callSpringScanAPI` and
`callSpringScanFaceMatch`), the canonical match band and confidence level
are a pure function of the extracted numeric score: s ≥ 85 gives
HIGH/HIGH, 70 ≤ s < 85 gives MEDIUM/MEDIUM, s < 70 gives LOW/LOW. -/
theorem c1_band_confidence_pure_function_of_score :
    ∀ (d : RawSpring) (pid : String) (now : ℕ),
      (normalizeSpringA d now).match_band
          = bandOfScoreSpec ((normalizeSpringA d now).match_score) ∧
      (normalizeSpringA d now).confidence_level
          = bandOfScoreSpec ((normalizeSpringA d now).match_score) ∧
      (normalizeSpringB d pid now).match_band
          = bandOfScoreSpec ((normalizeSpringB d pid now).match_score) ∧
      (normalizeSpringB d pid now).confidence_level
          = bandOfScoreSpec ((normalizeSpringB d pid now).match_score) := by
  intro d pid now
  refine ⟨?_, ?_, ?_, ?_⟩ <;>
    simp only [normalizeSpringA, normalizeSpringB, bandOfScoreSpec,
      decide_eq_true_eq]

/-!
Section: C2
-/

/-- Raw response in which the provider explicitly declares the match
boolean false while reporting score 80. -/
def rawC2 : RawSpring := { emptyRaw with isMatch := some false, match_score := some 80 }

/-- C2 counterexample: the provider's explicit `isMatch: false` with score
80 does not make the canonical `faceMatched` false — the JS `||` chain
falls through an explicit false to `score >= 70`, so `face_matched` is
true and the status is VERIFIED, contradicting the claim that faceMatched
equals the provider's explicit boolean (including an explicit false) and
that VERIFIED requires matched true-or-unspecified. -/
theorem c2_explicit_false_counterexample :
    rawC2.isMatch = some false ∧
    (normalizeSpringB rawC2 "p1" 0).face_matched = true ∧
    (normalizeSpringB rawC2 "p1" 0).status = "VERIFIED" := by decide

/-- C2 amended: in `callSpringScanFaceMatch` the canonical status is
VERIFIED iff s ≥ 70, REVIEW iff 50 ≤ s < 70 and FAILED iff s < 50 — the
provider's matched boolean cannot demote a high-scoring response, because
an explicit false is falsy and falls through to `s ≥ 70`; `faceMatched`
is true iff one of the provider booleans `isMatch`/`match`/`faceMatched`
is explicitly true or s ≥ 70. -/
theorem c2_status_facematched_amended :
    ∀ (d : RawSpring) (pid : String) (now : ℕ),
      ((normalizeSpringB d pid now).status = "VERIFIED"
          ↔ 70 ≤ (normalizeSpringB d pid now).match_score) ∧
      ((normalizeSpringB d pid now).status = "REVIEW"
          ↔ 50 ≤ (normalizeSpringB d pid now).match_score
            ∧ (normalizeSpringB d pid now).match_score < 70) ∧
      ((normalizeSpringB d pid now).status = "FAILED"
          ↔ (normalizeSpringB d pid now).match_score < 50) ∧
      ((normalizeSpringB d pid now).face_matched = true
          ↔ (d.isMatch = some true ∨ d.matchF = some true
             ∨ d.faceMatched = some true
             ∨ 70 ≤ (normalizeSpringB d pid now).match_score)) := by
  intro d pid now
  simp only [normalizeSpringB]
  by_cases h70 : (70 : ℚ) ≤ springScoreB d
  · have h50' : (50 : ℚ) ≤ springScoreB d := le_trans (by norm_num) h70
    simp [jsOrB_true, h70, h50', not_lt.mpr h70, not_lt.mpr h50']
  · have h50cases := lt_or_ge (springScoreB d) 50
    have hd : decide (70 ≤ springScoreB d) = false := by
      simp [h70]
    simp only [hd, Bool.and_false, if_false, Bool.false_eq_true]
    by_cases h50 : (50 : ℚ) ≤ springScoreB d
    · simp [h50, h70, jsOrB_eq_true, decide_eq_true_eq, lt_of_not_ge h70,
        not_le.mp h70]
    · simp [h50, h70, jsOrB_eq_true, decide_eq_true_eq, not_le.mp h50,
        lt_of_not_ge h70]

/-!
Section: C4
-/

/-- Raw response whose provider score is 150, above the claimed [0,100]
range. -/
def rawC4over : RawSpring := { emptyRaw with match_score := some 150 }

/-- C4 counterexample: normalization performs no clamping — a provider
score of 150 flows through `callSpringScanAPI` unchanged, so the canonical
`matchScore` is 150, outside [0, 100]. -/
theorem c4_no_clamp_counterexample :
    (normalizeSpringA rawC4over 0).match_score = 150 ∧
    ¬ ((normalizeSpringA rawC4over 0).match_score ≤ 100) := by decide

/-- C4 amended: the canonical `matchScore` is the extracted provider score
unchanged (0 when every score field is absent or zero); it lies in [0,100]
exactly when the provider's values do, so the range invariant holds only
under the hypothesis that every provider-supplied score field is within
[0, 100] — no clamping is performed. -/
theorem c4_range_conditional_amended :
    ∀ (d : RawSpring) (pid : String) (now : ℕ),
      inRangeOpt d.match_score → inRangeOpt d.score →
      inRangeOpt d.confidence → inRangeOpt d.similarity →
      inRangeOpt d.matchScore → inRangeOpt d.confidenceScore →
      (0 ≤ (normalizeSpringA d now).match_score
        ∧ (normalizeSpringA d now).match_score ≤ 100) ∧
      (0 ≤ (normalizeSpringB d pid now).match_score
        ∧ (normalizeSpringB d pid now).match_score ≤ 100) := by
  intro d pid now h1 h2 h3 h4 h5 h6
  have base : (0 : ℚ) ≤ 0 ∧ (0 : ℚ) ≤ 100 := by norm_num
  constructor
  · show 0 ≤ springScoreA d ∧ springScoreA d ≤ 100
    exact jsOrN_range _ _ h1
      (jsOrN_range _ _ h2 (jsOrN_range _ _ h3 (jsOrN_range _ _ h4 base.1 base.2).1
        (jsOrN_range _ _ h4 base.1 base.2).2).1
       (jsOrN_range _ _ h3 (jsOrN_range _ _ h4 base.1 base.2).1
        (jsOrN_range _ _ h4 base.1 base.2).2).2).1
      (jsOrN_range _ _ h2 (jsOrN_range _ _ h3 (jsOrN_range _ _ h4 base.1 base.2).1
        (jsOrN_range _ _ h4 base.1 base.2).2).1
       (jsOrN_range _ _ h3 (jsOrN_range _ _ h4 base.1 base.2).1
        (jsOrN_range _ _ h4 base.1 base.2).2).2).2
  · show 0 ≤ springScoreB d ∧ springScoreB d ≤ 100
    have s6 := jsOrN_range _ _ h6 base.1 base.2
    have s5 := jsOrN_range _ _ h5 s6.1 s6.2
    have s4 := jsOrN_range _ _ h4 s5.1 s5.2
    have s3 := jsOrN_range _ _ h3 s4.1 s4.2
    have s2 := jsOrN_range _ _ h2 s3.1 s3.2
    exact jsOrN_range _ _ h1 s2.1 s2.2

/-- Raw response used by the C4 witness: provider score 80, all other
fields absent. -/
def rawC4in : RawSpring := { emptyRaw with match_score := some 80 }

/-- Witness for the amended C4 theorem at a concrete in-range input. -/
theorem c4_range_witness :
    (0 ≤ (normalizeSpringA rawC4in 0).match_score
      ∧ (normalizeSpringA rawC4in 0).match_score ≤ 100) ∧
    (0 ≤ (normalizeSpringB rawC4in "p1" 0).match_score
      ∧ (normalizeSpringB rawC4in "p1" 0).match_score ≤ 100) :=
  c4_range_conditional_amended rawC4in "p1" 0 (by decide) (by decide)
    (by decide) (by decide) (by decide) (by decide)

/-!
Section: C10
-/

/-- C10 counterexample: `callSpringScanAPI` run twice on the identical raw
response (here: the empty response) at clock values 0 and 1 yields
different canonical results — `request_id` is freshly generated from the
clock when the provider supplies none, and `processed_at` is the run's
wall-clock reading; so normalization is not deterministic in the
request_id and processedAt fields across runs. -/
theorem c10_clock_counterexample :
    normalizeSpringA emptyRaw 0 ≠ normalizeSpringA emptyRaw 1 ∧
    (normalizeSpringA emptyRaw 0).request_id = "SV_0" ∧
    (normalizeSpringA emptyRaw 1).request_id = "SV_1" ∧
    (normalizeSpringA emptyRaw 0).processed_at
      ≠ (normalizeSpringA emptyRaw 1).processed_at := by decide

/-- C10 amended: normalization is deterministic up to the clock — two runs
of `callSpringScanAPI` or of `callSpringScanFaceMatch` on the identical
raw response agree on every field except `processed_at` (always the run's
clock reading) and `request_id` (freshly generated from the clock only
when the provider supplies no identifier: a nonempty provider
`request_id` makes it agree as well, in both normalizers). -/
theorem c10_determinism_amended :
    ∀ (d : RawSpring) (pid : String) (t1 t2 : ℕ),
      (∀ rid : String, d.request_id = some rid → rid ≠ "" →
        (normalizeSpringA d t1).request_id = (normalizeSpringA d t2).request_id ∧
        (normalizeSpringB d pid t1).request_id = (normalizeSpringB d pid t2).request_id) ∧
      (normalizeSpringA d t1).match_score = (normalizeSpringA d t2).match_score ∧
      (normalizeSpringA d t1).match_percentage = (normalizeSpringA d t2).match_percentage ∧
      (normalizeSpringA d t1).match_band = (normalizeSpringA d t2).match_band ∧
      (normalizeSpringA d t1).status = (normalizeSpringA d t2).status ∧
      (normalizeSpringA d t1).confidence_level = (normalizeSpringA d t2).confidence_level ∧
      (normalizeSpringA d t1).liveness_status = (normalizeSpringA d t2).liveness_status ∧
      (normalizeSpringA d t1).liveness_confidence = (normalizeSpringA d t2).liveness_confidence ∧
      (normalizeSpringA d t1).face_1_detected = (normalizeSpringA d t2).face_1_detected ∧
      (normalizeSpringA d t1).face_1_quality = (normalizeSpringA d t2).face_1_quality ∧
      (normalizeSpringA d t1).face_2_detected = (normalizeSpringA d t2).face_2_detected ∧
      (normalizeSpringA d t1).face_2_quality = (normalizeSpringA d t2).face_2_quality ∧
      (normalizeSpringA d t1).mode = (normalizeSpringA d t2).mode ∧
      (normalizeSpringA d t1).raw_response = (normalizeSpringA d t2).raw_response ∧
      (normalizeSpringB d pid t1).person_id = (normalizeSpringB d pid t2).person_id ∧
      (normalizeSpringB d pid t1).match_score = (normalizeSpringB d pid t2).match_score ∧
      (normalizeSpringB d pid t1).match_percentage = (normalizeSpringB d pid t2).match_percentage ∧
      (normalizeSpringB d pid t1).match_band = (normalizeSpringB d pid t2).match_band ∧
      (normalizeSpringB d pid t1).status = (normalizeSpringB d pid t2).status ∧
      (normalizeSpringB d pid t1).confidence_level = (normalizeSpringB d pid t2).confidence_level ∧
      (normalizeSpringB d pid t1).face_matched = (normalizeSpringB d pid t2).face_matched ∧
      (normalizeSpringB d pid t1).liveness_status = (normalizeSpringB d pid t2).liveness_status ∧
      (normalizeSpringB d pid t1).liveness_confidence = (normalizeSpringB d pid t2).liveness_confidence ∧
      (normalizeSpringB d pid t1).face_1_detected = (normalizeSpringB d pid t2).face_1_detected ∧
      (normalizeSpringB d pid t1).face_1_quality = (normalizeSpringB d pid t2).face_1_quality ∧
      (normalizeSpringB d pid t1).face_2_detected = (normalizeSpringB d pid t2).face_2_detected ∧
      (normalizeSpringB d pid t1).face_2_quality = (normalizeSpringB d pid t2).face_2_quality ∧
      (normalizeSpringB d pid t1).mode = (normalizeSpringB d pid t2).mode ∧
      (normalizeSpringB d pid t1).raw_response = (normalizeSpringB d pid t2).raw_response := by
  intro d pid t1 t2
  refine ⟨?_, rfl, rfl, rfl, rfl, rfl, rfl, rfl, rfl, rfl, rfl, rfl, rfl, rfl,
    rfl, rfl, rfl, rfl, rfl, rfl, rfl, rfl, rfl, rfl, rfl, rfl, rfl, rfl, rfl⟩
  intro rid h hne
  constructor
  · show jsOrS d.request_id _ = jsOrS d.request_id _
    rw [h]
    simp [jsOrS, hne]
  · show jsOrS d.request_id _ = jsOrS d.request_id _
    rw [h]
    simp [jsOrS, hne]

/-- Raw response used by the C10 witness: the provider supplies a nonempty
request id. -/
def rawC10 : RawSpring := { emptyRaw with request_id := some "REQ1" }

/-- Witness for the amended C10 theorem: with a provider-supplied request
id, two runs at different clock values agree on `request_id` in both
normalizers. -/
theorem c10_determinism_witness :
    (normalizeSpringA rawC10 0).request_id = (normalizeSpringA rawC10 5).request_id ∧
    (normalizeSpringB rawC10 "p1" 0).request_id = (normalizeSpringB rawC10 "p1" 5).request_id :=
  (c10_determinism_amended rawC10 "p1" 0 5).1 "REQ1" rfl (by decide)

/-!
Section: C3 and C5 (IDfy normalizer)
-/

/-- Raw IDfy response `{match_score: "91.0", match_band: "green"}` after
`parseFloat`. -/
def rawIdfyGreen : RawIdfy :=
  { emptyRawIdfy with match_score := some 91, match_band := some "green" }

/-- Raw IDfy response carrying a numeric score but no qualitative band. -/
def rawIdfyNoBand : RawIdfy := { emptyRawIdfy with match_score := some 91 }

/-- Raw IDfy response with band yellow and no score. -/
def rawIdfyYellow : RawIdfy := { emptyRawIdfy with match_band := some "yellow" }

/-- C3 counterexample: with the qualitative band absent and a numeric
score of 91, the IDfy normalizer reports band GRAY but status FAILED and
confidence LOW — the numeric score is not consulted for status at all,
refuting the claim that a GRAY band is treated as LOW only for status
purposes with the numeric score still applied per the score-based rules
(which would give VERIFIED/HIGH at 91), and refuting the "numeric score
alone" tier of the claimed extraction priority. -/
theorem c3_gray_ignores_score_counterexample :
    rawIdfyNoBand.match_band = none ∧
    (normalizeIdfy rawIdfyNoBand "t1" 0).match_score = 91 ∧
    (normalizeIdfy rawIdfyNoBand "t1" 0).match_band = "GRAY" ∧
    (normalizeIdfy rawIdfyNoBand "t1" 0).status = "FAILED" ∧
    (normalizeIdfy rawIdfyNoBand "t1" 0).confidence_level = "LOW" := by decide

/-- C3 amended: in the IDfy normalizer the provider-declared qualitative
band alone determines the canonical band, confidence level, status and
faceMatched — green gives GREEN/HIGH/VERIFIED/true, yellow gives
YELLOW/MEDIUM/REVIEW/true, any other or absent band gives LOW/FAILED/false
regardless of the numeric score, and an absent band is reported as GRAY;
the numeric score only populates matchScore (defaulting to 0). -/
theorem c3_idfy_band_priority_amended :
    ∀ (d : RawIdfy) (tid : String) (now : ℕ),
      (idfyBandLower d = "green" →
        (normalizeIdfy d tid now).match_band = "GREEN" ∧
        (normalizeIdfy d tid now).confidence_level = "HIGH" ∧
        (normalizeIdfy d tid now).status = "VERIFIED" ∧
        (normalizeIdfy d tid now).face_matched = true) ∧
      (idfyBandLower d = "yellow" →
        (normalizeIdfy d tid now).match_band = "YELLOW" ∧
        (normalizeIdfy d tid now).confidence_level = "MEDIUM" ∧
        (normalizeIdfy d tid now).status = "REVIEW" ∧
        (normalizeIdfy d tid now).face_matched = true) ∧
      (idfyBandLower d ≠ "green" → idfyBandLower d ≠ "yellow" →
        (normalizeIdfy d tid now).confidence_level = "LOW" ∧
        (normalizeIdfy d tid now).status = "FAILED" ∧
        (normalizeIdfy d tid now).face_matched = false) ∧
      (d.match_band = none → (normalizeIdfy d tid now).match_band = "GRAY") := by
  intro d tid now
  refine ⟨?_, ?_, ?_, ?_⟩
  · intro h
    simp only [normalizeIdfy, h]
    exact ⟨by decide, by decide, by decide, by decide⟩
  · intro h
    simp only [normalizeIdfy, h]
    exact ⟨by decide, by decide, by decide, by decide⟩
  · intro h1 h2
    simp only [normalizeIdfy]
    refine ⟨by simp [h1, h2], by simp [h1, h2], ?_⟩
    simp [h1, h2]
  · intro h
    simp only [normalizeIdfy, idfyBandLower, h]
    decide

/-- Witness for the amended C3 theorem at concrete green and yellow
inputs. -/
theorem c3_idfy_band_priority_witness :
    ((normalizeIdfy rawIdfyGreen "t1" 0).match_band = "GREEN" ∧
     (normalizeIdfy rawIdfyGreen "t1" 0).confidence_level = "HIGH" ∧
     (normalizeIdfy rawIdfyGreen "t1" 0).status = "VERIFIED" ∧
     (normalizeIdfy rawIdfyGreen "t1" 0).face_matched = true) ∧
    (normalizeIdfy rawIdfyYellow "t1" 0).status = "REVIEW" :=
  ⟨(c3_idfy_band_priority_amended rawIdfyGreen "t1" 0).1 (by decide),
   ((c3_idfy_band_priority_amended rawIdfyYellow "t1" 0).2.1 (by decide)).2.2.1⟩

/-- C5 counterexample: on the raw Sync-adapter response
`{match_score: "91.0", match_band: "green"}`, the canonical result has
matchScore 91, status VERIFIED, confidenceLevel HIGH and faceMatched true
as claimed, but its matchBand is "GREEN" (the upper-cased provider band),
not "HIGH". -/
theorem c5_sync_green_counterexample :
    (normalizeIdfy rawIdfyGreen "t1" 0).match_score = 91 ∧
    (normalizeIdfy rawIdfyGreen "t1" 0).status = "VERIFIED" ∧
    (normalizeIdfy rawIdfyGreen "t1" 0).confidence_level = "HIGH" ∧
    (normalizeIdfy rawIdfyGreen "t1" 0).face_matched = true ∧
    (normalizeIdfy rawIdfyGreen "t1" 0).match_band = "GREEN" ∧
    (normalizeIdfy rawIdfyGreen "t1" 0).match_band ≠ "HIGH" := by decide

/-- C5 amended: the Sync adapter's raw body
`{match_score: "91.0", match_band: "green"}` normalizes to the canonical
result with matchScore 91, matchBand "GREEN", status "VERIFIED",
confidenceLevel "HIGH" and faceMatched true (full canonical record shown,
at clock value 7 and generated task id "t1"). -/
theorem c5_sync_green_scenario_amended :
    normalizeIdfy rawIdfyGreen "t1" 7 =
      ⟨"t1", 91, 91, "GREEN", "VERIFIED", "HIGH", true, false, "unknown",
       false, "unknown", 7, "idfy-rest-v2"⟩ := by decide

/-!
Section: C6 (poll loop)
-/

/-- C6: evaluation of the poll loop on the decisive status sequences. The
first three conjuncts match the claim: `[pending, pending, completed]`
succeeds after exactly 3 polls, thirty non-terminal responses time out,
and `failed` on attempt 1 aborts immediately. The fourth conjunct exhibits
the divergence: when `completed` arrives exactly on attempt 30, the
source's post-loop check `if (attempts >= maxAttempts) throw Timeout`
fires even though the loop broke out successfully, so the adapter throws
the timeout error instead of succeeding — contradicting the claim that
success occurs for every position of the terminal status up to attempt
30, and that the timeout fires exactly when no terminal status arrived. -/
theorem c6_poll_loop_eval :
    pollLoop (fun i => if i ≤ 2 then PollResp.ok "pending" else PollResp.ok "completed")
      = PollResult.success 3 ∧
    pollLoop (fun _ => PollResp.ok "pending") = PollResult.timeout ∧
    pollLoop (fun _ => PollResp.ok "failed") = PollResult.taskFailed 1 ∧
    pollLoop (fun i => if i ≤ 29 then PollResp.ok "pending" else PollResp.ok "completed")
      = PollResult.timeout := by decide

/-!
Section: C7 (vision-inference parser)
-/

/-- Bool identity connecting the source's sequential updates of `match` to
the disjunctive form of the amended claim. -/
lemma ifBoolAux (a n m : Bool) :
    (if a then true else if n then false else m) = (a || (m && !n)) := by
  cases a <;> cases n <;> cases m <;> rfl

/-- C7 counterexample: the text "No match found, confidence: 92%" contains
the negative cue "no match", so by the claim its matched flag must be
false; but the parser's final inference `score >= 70 && !includes("not")`
runs unconditionally (the text lacks the substring "not"), overriding the
negative cue, and the parser returns matched: true with score 92. The
regex captures on this text are 92 for the percent pattern, none for the
score pattern and 92 for the confidence pattern. -/
theorem c7_negative_cue_overridden_counterexample :
    containsStr (lowerStr "No match found, confidence: 92%") "no match" = true ∧
    parseAIResponse "No match found, confidence: 92%" (some 92) none (some 92)
      = (true, 92) := by
  constructor
  · decide
  · have e0 : ¬ ("No match found, confidence: 92%" = "") := by decide
    have h70 : (decide ((70 : ℚ) ≤ 92)) = true := by decide
    have hnot : containsStr (lowerStr "No match found, confidence: 92%") "not" = false := by
      decide
    simp [parseAIResponse, e0, h70, hnot]

/-- C7 amended: the extracted score follows the priority confidence
capture, then score capture (values at most 1 scaled by 100), then bare
percentage, then 0; matched is true exactly when the final score is at
least 70 and the text lacks the substring "not" (an inference that runs
unconditionally and can override an explicit negative cue), or when an
affirmative cue appears and no negative cue does. The claim's three
concrete examples hold as stated. -/
theorem c7_parser_amended :
    (∀ (text : String) (pc sc cc : Option ℚ),
      (parseAIResponse text pc sc cc).2
          = (if text = "" then 0 else specParsedScore pc sc cc) ∧
      (parseAIResponse text pc sc cc).1
          = specParsedMatch text (specParsedScore pc sc cc)) ∧
    parseAIResponse "Match: Yes, Confidence: 92%" (some 92) none (some 92)
      = (true, 92) ∧
    parseAIResponse "No match found, score: 0.15" none (some 0.15) none
      = (false, 15) ∧
    parseAIResponse "unclear" none none none = (false, 0) := by
  refine ⟨?_, ?_, ?_, ?_⟩
  · intro text pc sc cc
    by_cases e : text = ""
    · simp [parseAIResponse, specParsedMatch, e]
    · constructor
      · simp only [parseAIResponse, if_neg e, specParsedScore]
      · simp only [parseAIResponse, specParsedMatch, if_neg e]
        cases cc <;> cases sc <;> cases pc <;> exact ifBoolAux _ _ _
  · have e0 : ¬ ("Match: Yes, Confidence: 92%" = "") := by decide
    have hnot : containsStr (lowerStr "Match: Yes, Confidence: 92%") "not" = false := by decide
    have h70 : (decide ((70 : ℚ) ≤ 92)) = true := by decide
    simp [parseAIResponse, e0, hnot, h70]
  · have e0 : ¬ ("No match found, score: 0.15" = "") := by decide
    have h1 : containsStr (lowerStr "No match found, score: 0.15") "match" = true := by decide
    have h5 : containsStr (lowerStr "No match found, score: 0.15") "no match" = true := by
      decide
    have hle : ((0.15 : ℚ) ≤ 1) = True := by norm_num
    have hmul : (0.15 : ℚ) * 100 = 15 := by norm_num
    have h70 : (decide ((70 : ℚ) ≤ 15)) = false := by norm_num
    have hnot : containsStr (lowerStr "No match found, score: 0.15") "not" = false := by
      decide
    simp [parseAIResponse, e0, h1, h5, hle, hmul, h70, hnot]
  · have e0 : ¬ ("unclear" = "") := by decide
    have h1 : containsStr (lowerStr "unclear") "match" = false := by decide
    have hnot : containsStr (lowerStr "unclear") "not" = false := by decide
    have h70 : (decide ((70 : ℚ) ≤ 0)) = false := by decide
    simp [parseAIResponse, e0, h1, hnot, h70]

/-!
Section: C8 (image compressor)
-/

/-- An encoding oracle standing for a 100-byte input image whose every
JPEG re-encoding is 40000 bytes (small, highly-compressed inputs do
inflate under re-encoding at a higher quality). -/
def bigEncode (_q _d : ℕ) : ℕ := 40000

/-- C8 counterexample: with every encoding attempt producing 40000 bytes
against a 30 KB budget, the loop walks the full quality ladder
70,60,50,40,30,20 and returns the 40000-byte last attempt — which exceeds
a 100-byte input, refuting "the output size in bytes never exceeds the
input size": the source never compares the result against the input
size. -/
theorem c8_inflation_counterexample :
    compressImage bigEncode 30 = (40000, 20, [70, 60, 50, 40, 30, 20]) ∧
    ¬ ((compressImage bigEncode 30).1 ≤ 100) := by
  have h : compressImage bigEncode 30 = (40000, 20, [70, 60, 50, 40, 30, 20]) := by
    simp only [compressImage]
    unfold compressGo
    norm_num [bigEncode]
    unfold compressGo
    norm_num [bigEncode]
    unfold compressGo
    norm_num [bigEncode]
    unfold compressGo
    norm_num [bigEncode]
    unfold compressGo
    norm_num [bigEncode]
    unfold compressGo
    norm_num [bigEncode]
  refine ⟨h, ?_⟩
  rw [h]
  norm_num

/-- C8 amended: for every encoder behavior and budget, the qualities
attempted are an initial segment of 70,60,50,40,30,20 (so the quality used
is always in that set and non-increasing across retries), the final
quality is in that set, and the function always returns its last encoding
attempt: either the initial quality-70 800x800 encoding or the 600x600
encoding at the final quality. Nothing bounds the returned size by the
input size. -/
theorem c8_quality_ladder_amended :
    ∀ (encode : ℕ → ℕ → ℕ) (maxKB : ℕ),
      ((compressImage encode maxKB).2.2) ∈
        [[70], [70, 60], [70, 60, 50], [70, 60, 50, 40], [70, 60, 50, 40, 30],
         [70, 60, 50, 40, 30, 20]] ∧
      (compressImage encode maxKB).2.1 ∈ [70, 60, 50, 40, 30, 20] ∧
      ((compressImage encode maxKB).1 = encode 70 800 ∨
       (compressImage encode maxKB).1 = encode ((compressImage encode maxKB).2.1) 600) := by
  intro encode maxKB
  simp only [compressImage]
  unfold compressGo
  split
  · unfold compressGo
    split
    · unfold compressGo
      split
      · unfold compressGo
        split
        · unfold compressGo
          split
          · unfold compressGo
            split
            · omega
            · exact ⟨by norm_num, by norm_num, Or.inr rfl⟩
          · exact ⟨by norm_num, by norm_num, Or.inr rfl⟩
        · exact ⟨by norm_num, by norm_num, Or.inr rfl⟩
      · exact ⟨by norm_num, by norm_num, Or.inr rfl⟩
    · exact ⟨by norm_num, by norm_num, Or.inr rfl⟩
  · exact ⟨by norm_num, by norm_num, Or.inl rfl⟩

/-!
Section: C9 (multi-step sequencing)
-/

/-- C9: for every provider behavior in which the create-person call
succeeds and the selfie-upload call fails with HTTP 500, the MultiStep
flow issues exactly the calls create-person and upload-selfie — the OCR
document-submission call is never issued and no other (rollback) call
exists in the trace — and the gateway handler returns HTTP 500 with the
envelope `{success: false, error: message, detail: selfie error body}`. -/
theorem c9_selfie_failure_aborts_sequence :
    ∀ (pid body msg : String) (ocrR : HttpResp RawOcr) (now : ℕ),
      callSpringScanMulti ⟨HttpResp.ok pid, HttpResp.err 500 body msg, ocrR⟩ now
        = ([Step.createPerson, Step.uploadSelfie], Except.error ⟨500, body, msg⟩) ∧
      handleFaceMatchMulti ⟨HttpResp.ok pid, HttpResp.err 500 body msg, ocrR⟩ now
        = Except.error ⟨500, false, msg, some body⟩ := by
  intro pid body msg ocrR now
  exact ⟨rfl, rfl⟩
